import Mathlib

/-!
Shallow embedding of fotema's ingestion/enrichment pipeline:
  * `Visual` and its derived predicates (core/src/visual/model.rs),
  * the `App` message-handling state machine (src/app.rs, `App::update`),
  * the preview-generation worker (src/app/background/generate_previews.rs),
  * a spec-modelled visual repository merge/ordering for the parts of
    fotema_core that are not in the sources at hand.
Rust machine integers (`usize` counters) are modelled as `Nat`; paths and
ids are modelled as `String`/`Nat`; `Option` fields map to `Option`.
-/

namespace Fotema

/-! ## Data model: core/src/visual/model.rs -/

/-- A visual artefact, such as a photo or a video (or in some cases both at
once).  Field-for-field embedding of `struct Visual`; `PathBuf` becomes
`String`, `PictureId`/`VideoId` become `Nat`, `DateTime<Utc>` becomes a
`Nat` timestamp. -/
structure Visual where
  visual_id : String
  parent_path : String
  /-- Path to thumbnail. If both a picture and a video are present, then
  this will be the picture thumbnail path. -/
  thumbnail_path : String
  video_id : Option Nat
  video_path : Option String
  video_transcoded_path : Option String
  picture_id : Option Nat
  picture_path : Option String
  /-- EXIF or file system creation timestamp -/
  created_at : Nat
  is_selfie : Option Bool
  is_ios_live_photo : Bool
  is_transcode_required : Option Bool
deriving Repr, DecidableEq

/-- `Visual::path`: `self.picture_path.as_ref().or_else(|| self.video_path.as_ref())`. -/
def Visual.path (v : Visual) : Option String :=
  v.picture_path.orElse (fun _ => v.video_path)

/-- `Visual::is_selfie`: `self.is_selfie.is_some_and(|x| x)`.  (Named
`isSelfie` because the Rust method shares its name with the field.) -/
def Visual.isSelfie (v : Visual) : Bool :=
  match v.is_selfie with
  | some x => x
  | none => false

/-- `Visual::is_motion_photo`: `self.is_ios_live_photo`. -/
def Visual.is_motion_photo (v : Visual) : Bool :=
  v.is_ios_live_photo

/-- `Visual::is_photo_only`: `self.picture_id.is_some() && self.video_id.is_none()`. -/
def Visual.is_photo_only (v : Visual) : Bool :=
  v.picture_id.isSome && v.video_id.isNone

/-- `Visual::is_video_only`: `self.picture_id.is_none() && self.video_id.is_some()`. -/
def Visual.is_video_only (v : Visual) : Bool :=
  v.picture_id.isNone && v.video_id.isSome

/-! ## App message-handling state machine: src/app.rs

`App::update` reacts to `AppMsg` messages by mutating the pipeline-relevant
fields (`last_load_at`, `progress_end_count`, `progress_current_count`) and
emitting messages to background workers (`WorkerController::emit`) or back
to itself (`sender.input`).  Messages that only touch GTK widgets
(`Quit`, `ToggleSidebar`, `SwitchView`, view navigation, preferences) read
and write none of these fields and emit nothing to the pipeline workers, so
they are omitted; emissions to presentation-layer components (album grids,
spinner, banner, progress bar widgets) are likewise out of scope and not
modelled as commands. -/

/-- The pipeline-relevant variants of `enum AppMsg`. -/
inductive AppMsg where
  | LibraryRefresh
  | LibraryRefreshed
  | PhotoScanStarted
  | PhotoScanCompleted
  | VideoScanStarted
  | VideoScanCompleted
  | PhotoEnrichmentStarted (count : Nat)
  | PhotoEnriched
  | PhotoEnrichmentCompleted
  | VideoEnrichmentStarted (count : Nat)
  | VideoEnriched
  | VideoEnrichmentCompleted
  | PhotoCleanStarted
  | PhotoCleanCompleted
  | VideoCleanStarted
  | VideoCleanCompleted
deriving Repr, DecidableEq

/-- Commands the `App::update` handler sends to background workers
(`worker.emit(...)`) or to itself (`sender.input(...)`). -/
inductive Cmd where
  | LoadLibraryRefresh
  | ScanPhotosStart
  | ScanVideosStart
  | CleanPhotosStart
  | CleanVideosStart
  | EnrichPhotosStart
  | EnrichVideosStart
  | InputLibraryRefresh
deriving Repr, DecidableEq

/-- The pipeline-relevant mutable fields of `struct App`. -/
structure AppState where
  last_load_at : Option Nat
  progress_end_count : Nat
  progress_current_count : Nat
deriving Repr, DecidableEq

/-- `App::update` (src/app.rs), restricted to the pipeline-relevant
messages.  `now` stands for `std::time::SystemTime::now()`.  Returns the
new state and the emitted commands in program order. -/
def App.update (s : AppState) (msg : AppMsg) (now : Nat) : AppState × List Cmd :=
  match msg with
  | .LibraryRefresh =>
      (s, [Cmd.LoadLibraryRefresh])
  | .LibraryRefreshed =>
      let cmds := if s.last_load_at.isNone then [Cmd.ScanPhotosStart] else []
      ({ s with last_load_at := some now }, cmds)
  | .PhotoScanStarted => (s, [])
  | .PhotoScanCompleted => (s, [Cmd.ScanVideosStart])
  | .VideoScanStarted => (s, [])
  | .VideoScanCompleted => (s, [Cmd.CleanPhotosStart])
  | .PhotoEnrichmentStarted count =>
      ({ s with progress_end_count := count, progress_current_count := 0 }, [])
  | .PhotoEnriched =>
      ({ s with progress_current_count := s.progress_current_count + 1 }, [])
  | .PhotoEnrichmentCompleted => (s, [Cmd.EnrichVideosStart])
  | .VideoEnrichmentStarted count =>
      ({ s with progress_end_count := count, progress_current_count := 0 }, [])
  | .VideoEnriched =>
      ({ s with progress_current_count := s.progress_current_count + 1 }, [])
  | .VideoEnrichmentCompleted => (s, [Cmd.InputLibraryRefresh])
  | .PhotoCleanStarted => (s, [])
  | .PhotoCleanCompleted => (s, [Cmd.CleanVideosStart])
  | .VideoCleanStarted => (s, [])
  | .VideoCleanCompleted => (s, [Cmd.EnrichPhotosStart])

/-- Folding `App::update` over a message list, keeping only the state. -/
def App.run (s : AppState) (now : Nat) : List AppMsg → AppState
  | [] => s
  | m :: ms => App.run (App.update s m now).1 now ms

/-! ## Preview-generation worker: src/app/background/generate_previews.rs

`GeneratePreviews::update_previews` fetches all pictures under the repo
lock, releases the lock, and then, per picture, runs the previewer
(expensive I/O, unlocked) and re-takes the lock only for the short
`add_preview` write.  A failed `set_preview` or `add_preview` is logged and
the loop `continue`s.  The previewer and repository internals are external
to this file's sources, so they are parameters: `setp` is
`Previewer::set_preview` (returns the mutated picture or an error) and
`addp` is `Repository::add_preview` (returns unit or an error). -/

/-- A picture record as seen by the preview worker: its id and the preview
path `set_preview` fills in. -/
structure Pic where
  picture_id : Nat
  preview : Option String
deriving Repr, DecidableEq

/-- Outputs of the `GeneratePreviews` worker (`enum GeneratePreviewsOutput`). -/
inductive GeneratePreviewsOutput where
  | PreviewsGenerated
deriving Repr, DecidableEq

/-- The per-picture loop of `update_previews`.  Returns the list of
pictures handed to `set_preview` (in order, the attempt trace) and the list
of pictures successfully written back with `add_preview`. -/
def previewLoop (setp : Pic → Except String Pic) (addp : Pic → Except String Unit) :
    List Pic → List Pic × List Pic
  | [] => ([], [])
  | p :: rest =>
    let t := previewLoop setp addp rest
    match setp p with
    | .error _ => (p :: t.1, t.2)
    | .ok p2 =>
      match addp p2 with
      | .error _ => (p :: t.1, t.2)
      | .ok _ => (p :: t.1, p2 :: t.2)

/-- `GeneratePreviews::update_previews`: fetch all pictures (`allRes` is the
result of `self.repo.lock().unwrap().all()`; an error propagates via `?`),
reverse so newer photos go first, then run the loop.  Per-item errors never
escape the loop, so a fetched list always yields `Ok`. -/
def update_previews (setp : Pic → Except String Pic) (addp : Pic → Except String Unit)
    (allRes : Except String (List Pic)) : Except String (List Pic × List Pic) :=
  match allRes with
  | .error e => .error e
  | .ok pics => .ok (previewLoop setp addp pics.reverse)

/-- `GeneratePreviews::update` on `GeneratePreviewsInput::Generate`: runs
`update_previews`; on `Ok` sends `PreviewsGenerated`, on `Err` only logs. -/
def GeneratePreviews.updateWorker (setp : Pic → Except String Pic)
    (addp : Pic → Except String Unit) (allRes : Except String (List Pic)) :
    List GeneratePreviewsOutput :=
  match update_previews setp addp allRes with
  | .error _ => []
  | .ok _ => [GeneratePreviewsOutput.PreviewsGenerated]

/-! ### Lock-discipline trace

Each `self.repo.lock().unwrap()` in `update_previews` produces a temporary
`MutexGuard` dropped at the end of its statement, so the repository lock is
held exactly for the statement's repository call.  The events below record
lock acquisition/release and the operations between them, in the order the
Rust statements execute. -/

/-- Events of one `update_previews` run: taking/dropping the repo mutex,
the `all()` read, the `add_preview` write, and the expensive unlocked
`set_preview` call. -/
inductive RepoEv where
  | acquire
  | release
  | readAll
  | addPreviewWrite
  | setPreviewRun
deriving Repr, DecidableEq

/-- Event trace of the per-picture loop: `set_preview` runs unlocked; only
when it succeeds is the lock re-taken around the `add_preview` write (a
failed write releases the lock and the loop continues either way). -/
def previewLoopTrace (setp : Pic → Except String Pic) : List Pic → List RepoEv
  | [] => []
  | p :: rest =>
    RepoEv.setPreviewRun ::
      match setp p with
      | .error _ => previewLoopTrace setp rest
      | .ok _ =>
        RepoEv.acquire :: RepoEv.addPreviewWrite :: RepoEv.release ::
          previewLoopTrace setp rest

/-- Event trace of a whole `update_previews` run on fetched pictures
`pics`: the guarded `all()` read, then the loop over `pics.reverse`. -/
def updatePreviewsTrace (setp : Pic → Except String Pic) (pics : List Pic) : List RepoEv :=
  RepoEv.acquire :: RepoEv.readAll :: RepoEv.release :: previewLoopTrace setp pics.reverse

/-- `depthOk d t` walks trace `t` with current lock depth `d` and checks
that every `setPreviewRun` event happens at depth 0, i.e. with the
repository lock released. -/
def depthOk (d : Nat) : List RepoEv → Bool
  | [] => true
  | RepoEv.acquire :: t => depthOk (d + 1) t
  | RepoEv.release :: t => depthOk (d - 1) t
  | RepoEv.setPreviewRun :: t => d == 0 && depthOk d t
  | _ :: t => depthOk d t

/-! ## Enricher progress events (spec-modelled) -/

/-- Progress events an enrichment run reports to the app. -/
inductive EnrichEvent where
  | Started (n : Nat)
  | Advanced
  | Completed
deriving Repr, DecidableEq

/-- Modelled from the spec: the photo/video Enricher workers
(`fotema_core::photo::Enricher`, `fotema_core::video::Enricher` and the
`EnrichPhotos`/`EnrichVideos` background workers are not among the sources
at hand).  Per spec §4.3, a run over items with per-item outcomes
`results` (`true` = success, `false` = logged failure) reports
`Started(total_count)`, then one `Advanced` per item — success or failure,
both count — then `Completed`. -/
def enrichmentEvents (results : List Bool) : List EnrichEvent :=
  EnrichEvent.Started results.length ::
    (results.map (fun _ => EnrichEvent.Advanced) ++ [EnrichEvent.Completed])

/-- How the app receives a photo-enrichment run's events: the
`EnrichPhotos` forwarder in `App::init` maps `Started`/`Generated`/
`Completed` worker outputs to these `AppMsg`s. -/
def EnrichEvent.toAppMsg : EnrichEvent → AppMsg
  | .Started n => AppMsg.PhotoEnrichmentStarted n
  | .Advanced => AppMsg.PhotoEnriched
  | .Completed => AppMsg.PhotoEnrichmentCompleted

/-! ## Visual repository merge and ordering (spec-modelled) -/

/-- Modelled from the spec: a pictures-table row as the visual repository
sees it (`fotema_core::visual::Repository` is not among the sources at
hand).  `stem` is the file's base name without extension; `parent_path`
and `stem` together form the canonical base path used as merge key. -/
structure PictureRow where
  picture_id : Nat
  parent_path : String
  stem : String
  thumbnail_path : String
  picture_path : String
  created_at : Nat
  is_selfie : Option Bool
deriving Repr, DecidableEq

/-- Modelled from the spec: a videos-table row as the visual repository
sees it. -/
structure VideoRow where
  video_id : Nat
  parent_path : String
  stem : String
  thumbnail_path : String
  video_path : String
  created_at : Nat
  transcoded_path : Option String
deriving Repr, DecidableEq

/-- Do a picture row and a video row share a canonical base path
(same directory, same file stem)? -/
def sameKey (p : PictureRow) (v : VideoRow) : Bool :=
  p.parent_path == v.parent_path && p.stem == v.stem

/-- Modelled from the spec: merging a picture row with its paired video row
into one Visual — both ids set, `is_ios_live_photo` true, and
`thumbnail_path` taken from the picture (the picture's thumbnail is
preferred when both media kinds are present, per the `Visual` doc comment
in core/src/visual/model.rs). -/
def mergeVisual (p : PictureRow) (v : VideoRow) : Visual :=
  { visual_id := p.parent_path ++ "/" ++ p.stem
    parent_path := p.parent_path
    thumbnail_path := p.thumbnail_path
    video_id := some v.video_id
    video_path := some v.video_path
    video_transcoded_path := v.transcoded_path
    picture_id := some p.picture_id
    picture_path := some p.picture_path
    created_at := p.created_at
    is_selfie := p.is_selfie
    is_ios_live_photo := true
    is_transcode_required := none }

/-- Modelled from the spec: a picture row with no paired video becomes a
photo-only Visual. -/
def pictureOnlyVisual (p : PictureRow) : Visual :=
  { visual_id := p.parent_path ++ "/" ++ p.stem
    parent_path := p.parent_path
    thumbnail_path := p.thumbnail_path
    video_id := none
    video_path := none
    video_transcoded_path := none
    picture_id := some p.picture_id
    picture_path := some p.picture_path
    created_at := p.created_at
    is_selfie := p.is_selfie
    is_ios_live_photo := false
    is_transcode_required := none }

/-- Modelled from the spec: a video row with no paired picture becomes a
video-only Visual. -/
def videoOnlyVisual (v : VideoRow) : Visual :=
  { visual_id := v.parent_path ++ "/" ++ v.stem
    parent_path := v.parent_path
    thumbnail_path := v.thumbnail_path
    video_id := some v.video_id
    video_path := some v.video_path
    video_transcoded_path := v.transcoded_path
    picture_id := none
    picture_path := none
    created_at := v.created_at
    is_selfie := none
    is_ios_live_photo := false
    is_transcode_required := none }

/-- Modelled from the spec: the repository merge — each picture row joins
the first video row sharing its canonical base path; video rows without a
picture counterpart become video-only Visuals. -/
def mergeRows (pics : List PictureRow) (vids : List VideoRow) : List Visual :=
  (pics.map fun p =>
    match vids.find? (fun v => sameKey p v) with
    | some v => mergeVisual p v
    | none => pictureOnlyVisual p) ++
  ((vids.filter (fun v => !pics.any (fun p => sameKey p v))).map videoOnlyVisual)

/-- Newest-first comparison on Visuals: `a` may precede `b` when `b`'s
creation timestamp is no later than `a`'s. -/
def newestFirst (a b : Visual) : Prop :=
  b.created_at ≤ a.created_at

instance : DecidableRel newestFirst := fun a b =>
  inferInstanceAs (Decidable (b.created_at ≤ a.created_at))

instance : IsTotal Visual newestFirst :=
  ⟨fun a b => Nat.le_total b.created_at a.created_at⟩

instance : IsTrans Visual newestFirst :=
  ⟨fun _ _ _ h1 h2 => Nat.le_trans h2 h1⟩

/-- Modelled from the spec: `all_visuals()` — merge picture and video rows
and return the Visuals ordered by `created_at` descending (newest first),
the default order when the caller requests no other. -/
def all_visuals (pics : List PictureRow) (vids : List VideoRow) : List Visual :=
  (mergeRows pics vids).insertionSort newestFirst

/-! ## Concrete example Visuals used in counterexamples and witnesses -/

/-- A Visual whose `is_ios_live_photo` flag is set even though it has no
picture at all (only a video).  Nothing in `struct Visual` ties the flag to
the presence of both media kinds. -/
def flagOnlyVisual : Visual :=
  { visual_id := "vids/clip"
    parent_path := "vids"
    thumbnail_path := "thumbs/clip.png"
    video_id := some 7
    video_path := some "vids/clip.mov"
    video_transcoded_path := none
    picture_id := none
    picture_path := none
    created_at := 50
    is_selfie := none
    is_ios_live_photo := true
    is_transcode_required := some true }

/-- A Visual with both a picture and a video sharing the base path
`pics/IMG_0001`, but with the `is_ios_live_photo` flag unset. -/
def pairedUnflaggedVisual : Visual :=
  { visual_id := "pics/IMG_0001"
    parent_path := "pics"
    thumbnail_path := "thumbs/1.png"
    video_id := some 2
    video_path := some "pics/IMG_0001.MOV"
    video_transcoded_path := none
    picture_id := some 1
    picture_path := some "pics/IMG_0001.HEIC"
    created_at := 60
    is_selfie := some false
    is_ios_live_photo := false
    is_transcode_required := none }

/-- A photo-only Visual whose selfie status was never computed
(`is_selfie = none`). -/
def unknownSelfieVisual : Visual :=
  { visual_id := "pics/a"
    parent_path := "pics"
    thumbnail_path := "thumbs/a.png"
    video_id := none
    video_path := none
    video_transcoded_path := none
    picture_id := some 3
    picture_path := some "pics/a.jpg"
    created_at := 70
    is_selfie := none
    is_ios_live_photo := false
    is_transcode_required := none }

/-! ## C2: is_motion_photo -/

/-- C2 counterexample: `is_motion_photo()` is not equivalent to "picture
and video both present with matching base paths".  `flagOnlyVisual` has no
picture (`picture_id` and `picture_path` are both `none`) yet
`is_motion_photo()` returns true, and `pairedUnflaggedVisual` has both a
picture and a video sharing the base path `pics/IMG_0001` yet
`is_motion_photo()` returns false. -/
theorem c2_motion_photo_counterexample :
    flagOnlyVisual.is_motion_photo = true ∧
    flagOnlyVisual.picture_id = none ∧
    flagOnlyVisual.picture_path = none ∧
    pairedUnflaggedVisual.is_motion_photo = false ∧
    pairedUnflaggedVisual.picture_id = some 1 ∧
    pairedUnflaggedVisual.video_id = some 2 ∧
    pairedUnflaggedVisual.picture_path = some "pics/IMG_0001.HEIC" ∧
    pairedUnflaggedVisual.video_path = some "pics/IMG_0001.MOV" :=
  ⟨rfl, rfl, rfl, rfl, rfl, rfl, rfl, rfl⟩

/-- C2 (amended): `is_motion_photo()` returns exactly the stored
`is_ios_live_photo` flag; it does not inspect `picture_id`, `video_id` or
the file paths. -/
theorem c2_motion_photo_is_flag (v : Visual) :
    v.is_motion_photo = v.is_ios_live_photo :=
  rfl

/-! ## C9: Visual::path -/

/-- C9: `path()` returns `picture_path` when a picture path is present,
otherwise `video_path`; it is `none` exactly when both are absent; hence a
Visual satisfying the at-least-one-of-picture/video invariant always has
`path() = some _`. -/
theorem c9_path_fallback (v : Visual) :
    (v.picture_path.isSome = true → v.path = v.picture_path) ∧
    (v.picture_path = none → v.path = v.video_path) ∧
    (v.path = none ↔ v.picture_path = none ∧ v.video_path = none) ∧
    (v.picture_path.isSome = true ∨ v.video_path.isSome = true → v.path.isSome = true) := by
  rcases hp : v.picture_path with _ | p <;> rcases hq : v.video_path with _ | q <;>
    simp [Visual.path, hp, hq, Option.orElse]

/-- C9 witness: on `unknownSelfieVisual` (picture only) the theorem yields
`path() = picture_path`, and on `flagOnlyVisual` (video only) it yields a
present path. -/
theorem c9_path_fallback_witness :
    unknownSelfieVisual.path = unknownSelfieVisual.picture_path ∧
    flagOnlyVisual.path.isSome = true :=
  ⟨(c9_path_fallback unknownSelfieVisual).1 rfl,
   (c9_path_fallback flagOnlyVisual).2.2.2 (Or.inr rfl)⟩

/-! ## C10: Visual::is_selfie -/

/-- C10: the derived `is_selfie()` predicate is true exactly when the
stored tri-state field is `Some(true)`; the unknown state `None` is
collapsed to false. -/
theorem c10_selfie_tristate (v : Visual) :
    (v.isSelfie = true ↔ v.is_selfie = some true) ∧
    (v.is_selfie = none → v.isSelfie = false) := by
  rcases hv : v.is_selfie with _ | b
  · simp [Visual.isSelfie, hv]
  · cases b <;> simp [Visual.isSelfie, hv]

/-- C10 witness: a Visual whose selfie status was never computed is
reported as not a selfie. -/
theorem c10_selfie_tristate_witness : unknownSelfieVisual.isSelfie = false :=
  (c10_selfie_tristate unknownSelfieVisual).2 rfl

/-! ## C1: pipeline stage order -/

/-- The app's initial state: `last_load_at: None`, zero progress counters. -/
def initialAppState : AppState :=
  { last_load_at := none, progress_end_count := 0, progress_current_count := 0 }

/-- C1 counterexample: video-clean completion starts *photo* enrichment,
not video enrichment, and video enrichment is started by *photo*-enrichment
completion — so the claimed order `..., CleanVideos, EnrichVideos,
EnrichPhotos, ...` (video enrichment before photo enrichment) is false. -/
theorem c1_stage_order_counterexample :
    (App.update initialAppState AppMsg.VideoCleanCompleted 0).2 = [Cmd.EnrichPhotosStart] ∧
    Cmd.EnrichVideosStart ∉ (App.update initialAppState AppMsg.VideoCleanCompleted 0).2 ∧
    (App.update initialAppState AppMsg.PhotoEnrichmentCompleted 0).2 = [Cmd.EnrichVideosStart] := by
  decide

/-- C1 (amended): stages begin in the order ScanPhotos, ScanVideos,
CleanPhotos, CleanVideos, EnrichPhotos, EnrichVideos, and each stage is
started only by the completion signal of the stage before it (photo
enrichment therefore starts before video enrichment); the first stage is
started only by a library-refresh completion when no load has happened yet,
and the final stage's completion triggers the library reload. -/
theorem c1_stage_order (s : AppState) (now : Nat) (msg : AppMsg) :
    (Cmd.ScanVideosStart ∈ (App.update s msg now).2 ↔ msg = AppMsg.PhotoScanCompleted) ∧
    (Cmd.CleanPhotosStart ∈ (App.update s msg now).2 ↔ msg = AppMsg.VideoScanCompleted) ∧
    (Cmd.CleanVideosStart ∈ (App.update s msg now).2 ↔ msg = AppMsg.PhotoCleanCompleted) ∧
    (Cmd.EnrichPhotosStart ∈ (App.update s msg now).2 ↔ msg = AppMsg.VideoCleanCompleted) ∧
    (Cmd.EnrichVideosStart ∈ (App.update s msg now).2 ↔ msg = AppMsg.PhotoEnrichmentCompleted) ∧
    (Cmd.InputLibraryRefresh ∈ (App.update s msg now).2 ↔ msg = AppMsg.VideoEnrichmentCompleted) ∧
    (Cmd.ScanPhotosStart ∈ (App.update s msg now).2 →
      msg = AppMsg.LibraryRefreshed ∧ s.last_load_at = none) := by
  cases msg <;> cases h : s.last_load_at <;>
    simp [App.update, h]

/-- C1 witness: instantiating the amended theorem at the initial state
shows video enrichment is started by photo-enrichment completion. -/
theorem c1_stage_order_witness :
    Cmd.EnrichVideosStart ∈ (App.update initialAppState AppMsg.PhotoEnrichmentCompleted 0).2 :=
  (c1_stage_order initialAppState 0 AppMsg.PhotoEnrichmentCompleted).2.2.2.2.1.mpr rfl

/-! ## C4: single-flight start -/

/-- C4: once `last_load_at` is set (which happens the moment the one and
only scan sequence is kicked off), a further `LibraryRefreshed` emits no
commands at all — no second `ScanPhotosStart`, hence no second stage
sequence and no duplicate progress events — and no handler ever clears
`last_load_at`, so the guard holds for the rest of the run. -/
theorem c4_single_flight (s : AppState) (now t : Nat)
    (h : s.last_load_at = some t) :
    (App.update s AppMsg.LibraryRefreshed now).2 = [] ∧
    ∀ msg, ((App.update s msg now).1).last_load_at.isSome = true := by
  refine ⟨by simp [App.update, h], ?_⟩
  intro msg
  cases msg <;> simp [App.update, h]

/-- C4 witness: in a state where the initial load already happened at time
5, a later `LibraryRefreshed` at time 9 emits nothing. -/
theorem c4_single_flight_witness :
    (App.update { last_load_at := some 5, progress_end_count := 0,
                  progress_current_count := 0 } AppMsg.LibraryRefreshed 9).2 = [] :=
  (c4_single_flight
    { last_load_at := some 5, progress_end_count := 0, progress_current_count := 0 }
    9 5 rfl).1

/-! ## C3: enrichment progress accounting -/

/-- Does an event carry `Started`? -/
def EnrichEvent.isStarted : EnrichEvent → Bool
  | .Started _ => true
  | _ => false

/-- Running the app over concatenated message lists runs them in turn. -/
theorem App.run_append (s : AppState) (now : Nat) (l1 l2 : List AppMsg) :
    App.run s now (l1 ++ l2) = App.run (App.run s now l1) now l2 := by
  induction l1 generalizing s with
  | nil => rfl
  | cons m ms ih => simp [App.run, ih]

/-- Handling `k` consecutive `PhotoEnriched` messages adds `k` to
`progress_current_count` and changes nothing else. -/
theorem App.run_photoEnriched (k : Nat) (s : AppState) (now : Nat) :
    App.run s now (List.replicate k AppMsg.PhotoEnriched)
      = { s with progress_current_count := s.progress_current_count + k } := by
  induction k generalizing s with
  | zero => simp [App.run]
  | succ k ih =>
      obtain ⟨a, b, c⟩ := s
      simp only [List.replicate_succ, App.run, App.update, ih]
      simp [AppState.mk.injEq]
      omega

/-- C3: an enrichment run over items with outcomes `results` (length `N`,
failures counted like successes) emits exactly one `Started`, carrying `N`,
exactly `N` `Advanced`, and exactly one `Completed`; feeding those events
through the app's handlers leaves `progress_current_count = N =
progress_end_count` when `Completed` arrives. -/
theorem c3_progress_accounting (results : List Bool) (s : AppState) (now : Nat) :
    (enrichmentEvents results).countP (fun e => e.isStarted) = 1 ∧
    (enrichmentEvents results).count (EnrichEvent.Started results.length) = 1 ∧
    (enrichmentEvents results).count EnrichEvent.Advanced = results.length ∧
    (enrichmentEvents results).count EnrichEvent.Completed = 1 ∧
    App.run s now ((enrichmentEvents results).map EnrichEvent.toAppMsg)
      = { last_load_at := s.last_load_at,
          progress_end_count := results.length,
          progress_current_count := results.length } := by
  have hmap : (enrichmentEvents results).map EnrichEvent.toAppMsg
      = AppMsg.PhotoEnrichmentStarted results.length ::
          (List.replicate results.length AppMsg.PhotoEnriched ++
            [AppMsg.PhotoEnrichmentCompleted]) := by
    simp [enrichmentEvents, EnrichEvent.toAppMsg, List.map_map, Function.comp]
  refine ⟨?_, ?_, ?_, ?_, ?_⟩
  · simp [enrichmentEvents, EnrichEvent.isStarted, List.countP_append,
      List.countP_map, List.countP_eq_length_filter]
  · simp [enrichmentEvents, List.count_append,
      List.map_const', List.count_replicate, List.count_singleton]
  · simp [enrichmentEvents, List.count_append, List.map_const',
      List.count_replicate, List.count_singleton]
  · simp [enrichmentEvents, List.count_append, List.map_const',
      List.count_replicate, List.count_singleton]
  · rw [hmap]
    show App.run (App.update s (AppMsg.PhotoEnrichmentStarted results.length) now).1 now
      (List.replicate results.length AppMsg.PhotoEnriched ++ [AppMsg.PhotoEnrichmentCompleted]) = _
    rw [App.run_append, App.run_photoEnriched]
    simp [App.update, App.run]

/-! ## C5: per-item failure isolation in the preview worker -/

/-- The loop's attempt trace is the whole input list: every picture is
handed to `set_preview` exactly once, in order, however many items fail. -/
theorem previewLoop_attempts (setp : Pic → Except String Pic)
    (addp : Pic → Except String Unit) (l : List Pic) :
    (previewLoop setp addp l).1 = l := by
  induction l with
  | nil => rfl
  | cons p rest ih =>
      cases hsp : setp p with
      | error e => simp [previewLoop, hsp, ih]
      | ok p2 =>
          cases hap : addp p2 <;> simp [previewLoop, hsp, hap, ih]

/-- C5: for any previewer and repository behaviour (`setp`, `addp` decide
per item whether `set_preview`/`add_preview` fails), once the picture list
is fetched the worker attempts every picture exactly once, in order (a
failure is caught and the loop continues, so no item is dropped or
retried), and the run emits its single `PreviewsGenerated` completion
signal regardless of how many per-item failures occurred. -/
theorem c5_failure_isolation (setp : Pic → Except String Pic)
    (addp : Pic → Except String Unit) (pics : List Pic) :
    GeneratePreviews.updateWorker setp addp (Except.ok pics)
      = [GeneratePreviewsOutput.PreviewsGenerated] ∧
    (previewLoop setp addp pics.reverse).1 = pics.reverse :=
  ⟨rfl, previewLoop_attempts setp addp pics.reverse⟩

/-! ## C6: repository lock discipline in the preview worker -/

/-- `acquireOnlyForWrite t` checks that every lock acquisition in `t` is
immediately followed by a single short repository operation (the `all()`
read or the `add_preview` write) and then the release — the lock is never
held across anything else. -/
def acquireOnlyForWrite : List RepoEv → Bool
  | [] => true
  | RepoEv.acquire :: RepoEv.readAll :: RepoEv.release :: t => acquireOnlyForWrite t
  | RepoEv.acquire :: RepoEv.addPreviewWrite :: RepoEv.release :: t => acquireOnlyForWrite t
  | RepoEv.acquire :: _ => false
  | _ :: t => acquireOnlyForWrite t

/-- In the per-picture loop trace, every `set_preview` call happens with
the repository lock at depth 0. -/
theorem previewLoopTrace_depthOk (setp : Pic → Except String Pic) (l : List Pic) :
    depthOk 0 (previewLoopTrace setp l) = true := by
  induction l with
  | nil => rfl
  | cons p rest ih =>
      cases hsp : setp p <;> simp [previewLoopTrace, hsp, depthOk, ih]

/-- In the per-picture loop trace, every lock acquisition wraps exactly the
short `add_preview` write. -/
theorem previewLoopTrace_acquireOnlyForWrite (setp : Pic → Except String Pic)
    (l : List Pic) :
    acquireOnlyForWrite (previewLoopTrace setp l) = true := by
  induction l with
  | nil => rfl
  | cons p rest ih =>
      cases hsp : setp p <;> simp [previewLoopTrace, hsp, acquireOnlyForWrite, ih]

/-- C6: in every `update_previews` run, the expensive `set_preview` call
always executes with the repository lock released (depth 0), and every
acquisition of the lock covers exactly one short repository call — the
`all()` read or the `add_preview` write — followed immediately by the
release. -/
theorem c6_lock_discipline (setp : Pic → Except String Pic) (pics : List Pic) :
    depthOk 0 (updatePreviewsTrace setp pics) = true ∧
    acquireOnlyForWrite (updatePreviewsTrace setp pics) = true := by
  constructor
  · simp [updatePreviewsTrace, depthOk, previewLoopTrace_depthOk]
  · simp [updatePreviewsTrace, acquireOnlyForWrite,
      previewLoopTrace_acquireOnlyForWrite]

/-! ## C7: photo/video merge correctness -/

/-- C7: a picture row and a video row sharing a canonical base path (same
directory, same base name) merge into exactly one Visual, with both ids
set, `is_ios_live_photo = true`, and `thumbnail_path` equal to the
picture's thumbnail — the picture's thumbnail is preferred although the
video row has a thumbnail of its own. -/
theorem c7_merge_correctness (p : PictureRow) (v : VideoRow)
    (h : sameKey p v = true) :
    all_visuals [p] [v] = [mergeVisual p v] ∧
    (mergeVisual p v).picture_id = some p.picture_id ∧
    (mergeVisual p v).video_id = some v.video_id ∧
    (mergeVisual p v).is_ios_live_photo = true ∧
    (mergeVisual p v).thumbnail_path = p.thumbnail_path := by
  refine ⟨?_, rfl, rfl, rfl, rfl⟩
  simp [all_visuals, mergeRows, List.find?, h, List.insertionSort, List.orderedInsert]

/-- A picture row for `IMG_0001.HEIC` in directory `photos`. -/
def heicRow : PictureRow :=
  { picture_id := 1
    parent_path := "photos"
    stem := "IMG_0001"
    thumbnail_path := "thumbs/pic1.png"
    picture_path := "photos/IMG_0001.HEIC"
    created_at := 100
    is_selfie := some false }

/-- A video row for `IMG_0001.MOV` in the same directory, with its own
(distinct) thumbnail. -/
def movRow : VideoRow :=
  { video_id := 2
    parent_path := "photos"
    stem := "IMG_0001"
    thumbnail_path := "thumbs/vid2.png"
    video_path := "photos/IMG_0001.MOV"
    created_at := 100
    transcoded_path := none }

/-- C7 witness: `IMG_0001.HEIC` and `IMG_0001.MOV` merge into one Visual
whose thumbnail is the picture's. -/
theorem c7_merge_correctness_witness :
    all_visuals [heicRow] [movRow] = [mergeVisual heicRow movRow] ∧
    (mergeVisual heicRow movRow).thumbnail_path = "thumbs/pic1.png" :=
  ⟨(c7_merge_correctness heicRow movRow (by decide)).1,
   (c7_merge_correctness heicRow movRow (by decide)).2.2.2.2⟩

/-! ## C8: all_visuals ordering -/

/-- C8: the sequence returned by `all_visuals` is sorted by `created_at`
descending — every Visual's creation timestamp is at least that of each
Visual after it (newest first). -/
theorem c8_all_visuals_sorted (pics : List PictureRow) (vids : List VideoRow) :
    (all_visuals pics vids).Sorted newestFirst :=
  List.sorted_insertionSort newestFirst (mergeRows pics vids)

end Fotema
